import Mathlib

/-!
Shallow embedding of the challenge/authentication core of questLog
(`src/main.py`): the in-memory challenge cache, `fix_challenge`,
`validate_challenge` and the `/api/challenge/<uid>` handler.

Machine ints are `Nat`; Python exceptions are an explicit `Except` error
channel; the process-wide mutable state (`challenge_cache` and the stream
position of the OS random source) is threaded as an explicit state value.
-/

namespace QuestLog

/-- A cached challenge entry: the dict literal stored into
`challenge_cache` at `main.py` lines 166-173, with the same six keys. -/
structure ChallengeRecord where
  solution : String
  challenge : String
  session : String
  nonce : String
  tag : String
  expiry : Nat
deriving DecidableEq

/-- Process state: the global `challenge_cache` dict (a map from uid to
entry) together with the position of the next unread draw of the OS
random source (`os.urandom` / the nonce drawn inside `AES.new`). -/
structure St where
  cache : String → Option ChallengeRecord
  pos : Nat

/-- Result of the `userkey` graph query for one uid: a key was found,
the query result list was empty (unknown user), or the Dgraph request
itself failed (`graph_get` raises `Exception(result["errors"])`). -/
inductive KeyFetch where
  | found (key : String)
  | notFound
  | dbError (msg : String)

/-- Read-only environment of one request: configuration
(`challenge_truth_length`, `challenge_expiry_time`), the wall clock
(`time()`), the database (`userkey` and `user` queries), the OS random
source as a stream of byte lists indexed by draw position, and the
cipher primitives (AES-EAX `encrypt_and_digest` returning
ciphertext/tag, RSA key parsing, PKCS1-OAEP encryption) as abstract
functions. -/
structure Env where
  keyFetch : String → KeyFetch
  userExists : String → Bool
  now : Nat
  truthLen : Nat
  expiryTime : Nat
  urandom : Nat → Nat → List (Fin 256)
  urandom_len : ∀ p n, (urandom p n).length = n
  aesEnc : List (Fin 256) → List (Fin 256) → List (Fin 256) →
    List (Fin 256) × List (Fin 256)
  rsaValid : String → Bool
  rsaEnc : String → List (Fin 256) → List (Fin 256)

/-- Python exceptions that the modelled code can raise. -/
inductive PyErr where
  | typeError (msg : String)
  | keyError (key : String)
  | indexError (msg : String)
  | valueError (msg : String)
  | genericError (msg : String)
deriving DecidableEq

/-- The `Union[bool, str]` result type of `validate_challenge`. -/
inductive PyVal where
  | bool (b : Bool)
  | str (s : String)
deriving DecidableEq

/-- JSON values appearing in the challenge payload dict. -/
inductive Value where
  | s (v : String)
  | n (v : Nat)
deriving DecidableEq

/-- Body of a flask response relevant here: the challenge payload dict,
or one of the fixed error-message bodies. -/
inductive RespBody where
  | payload (fields : List (String × Value))
  | errorMsg (msg : String)
deriving DecidableEq

/-- A flask response: HTTP status code and body. -/
structure Resp where
  status : Nat
  body : RespBody
deriving DecidableEq

/-- Lowercase hex digit of a value below 16, as produced by Python's
`bytes.hex()`. -/
def hexDigit (n : Nat) : Char :=
  if n < 10 then Char.ofNat (48 + n) else Char.ofNat (87 + n)

/-- The two lowercase hex characters of one byte. -/
def byteHex (b : Fin 256) : List Char :=
  [hexDigit (b.val / 16), hexDigit (b.val % 16)]

/-- Character list of the lowercase hex encoding of a byte string. -/
def hexChars (bs : List (Fin 256)) : List Char :=
  (bs.map byteHex).flatten

/-- Python `bytes.hex()`: lowercase hex encoding of a byte string. -/
def hexEncode (bs : List (Fin 256)) : String :=
  String.mk (hexChars bs)

/-- Python `str.encode("ascii")` on strings whose characters are ASCII
(hex strings always are). -/
def strToBytes (s : String) : List (Fin 256) :=
  s.data.map (fun c => ⟨c.toNat % 256, Nat.mod_lt _ (by decide)⟩)

/-- The sixteen characters `bytes.hex()` can emit. -/
def hexAlphabet : List Char :=
  "0123456789abcdef".data

/-- Dict store `challenge_cache.update(\x7buid: rec\x7d)`: maps `uid` to
`rec`, leaving every other key unchanged. -/
def cacheSet (c : String → Option ChallengeRecord) (uid : String)
    (r : ChallengeRecord) : String → Option ChallengeRecord :=
  fun u => if u = uid then some r else c u

/-- Dict removal `challenge_cache.pop(uid)`. -/
def cachePop (c : String → Option ChallengeRecord) (uid : String) :
    String → Option ChallengeRecord :=
  fun u => if u = uid then none else c u

/-- Python truthiness of an `Optional[str]`: `None` and the empty string
are falsy, any other string is truthy. -/
def optStrTruthy : Option String → Bool
  | none => false
  | some s => !s.isEmpty

/-- Semantics of `json.dumps(error)` where `error` is an exception
object (`main.py` line 157): exception instances are not JSON
serializable, so `json.dumps` always raises `TypeError`. -/
def json_dumps_exc (_e : PyErr) : Except PyErr String :=
  .error (.typeError "Object of type Exception is not JSON serializable")

/-- Model of `graph_get("userkey", ...)[0]["key"]` (`main.py` line 155): a failed
Dgraph request raises a generic `Exception`; an unknown user yields an
empty result list, so indexing `[0]` raises `IndexError`. -/
def graph_get_userkey (env : Env) (uid : String) : Except PyErr String :=
  match env.keyFetch uid with
  | .found key => .ok key
  | .notFound => .error (.indexError "list index out of range")
  | .dbError msg => .error (.genericError msg)

/-- The fresh cache entry built at `main.py` lines 162-173 when the
random-source position is `pos`: `solution` is the hex of
`challenge_truth_length` random bytes, `session` is 16 random bytes,
the EAX nonce is the next random draw, the ciphertext and tag come from
`encrypt_and_digest(solution.encode("ascii"))`, the session key is
OAEP-encrypted under the user's RSA key, and
`expiry = time() + challenge_expiry_time`. -/
def fresh_record (env : Env) (pos : Nat) (key : String) : ChallengeRecord :=
  let solution := hexEncode (env.urandom pos env.truthLen)
  let session := env.urandom (pos + 1) 16
  let nonce := env.urandom (pos + 2) 16
  let final := env.aesEnc session nonce (strToBytes solution)
  { solution := solution
    challenge := hexEncode final.1
    session := hexEncode (env.rsaEnc key session)
    nonce := hexEncode nonce
    tag := hexEncode final.2
    expiry := env.now + env.expiryTime }

/-- Body of `fix_challenge` after the cache check (`main.py` lines
154-175): fetch the user's key — any exception there is caught by the
first handler `except Exception as error` (which shadows the later
`except IndexError` and `except KeyError` clauses) and fed to
`json.dumps`; on success draw the solution, session key and nonce,
encrypt, and store the new entry (`RSA.import_key` raises `ValueError`
if the stored key is not a valid RSA key). -/
def fix_body (env : Env) (st : St) (uid : String) :
    Except PyErr (Option String × St) :=
  match graph_get_userkey env uid with
  | .error e =>
    match json_dumps_exc e with
    | .error e2 => .error e2
    | .ok s => .ok (some s, st)
  | .ok key =>
    if env.rsaValid key then
      .ok (none,
        { cache := cacheSet st.cache uid (fresh_record env st.pos key)
          pos := st.pos + 3 })
    else .error (.valueError "RSA key format is not supported")

/-- Function `fix_challenge` (`main.py` lines 134-175): if the uid has a cached
entry with `expiry > time()`, return `None` unchanged; otherwise pop
any stale entry and regenerate via `fix_body`. -/
def fix_challenge (env : Env) (st : St) (uid : String) :
    Except PyErr (Option String × St) :=
  match st.cache uid with
  | some entry =>
    if entry.expiry > env.now then .ok (none, st)
    else fix_body env { st with cache := cachePop st.cache uid } uid
  | none => fix_body env st uid

/-- The `try: return challenge_cache[uid]["solution"] == solution
except KeyError: return False` tail of `validate_challenge`
(`main.py` lines 188-191). -/
def challenge_lookup (st : St) (uid sub : String) :
    Except PyErr (PyVal × St) :=
  match st.cache uid with
  | some entry => .ok (.bool (entry.solution == sub), st)
  | none => .ok (.bool false, st)

/-- Function `validate_challenge` (`main.py` lines 178-191): run `fix_challenge`;
if its result is truthy return it as a string; otherwise compare the
cached solution with the submitted one. -/
def validate_challenge (env : Env) (st : St) (uid sub : String) :
    Except PyErr (PyVal × St) :=
  match fix_challenge env st uid with
  | .error e => .error e
  | .ok (fixOut, st') =>
    if optStrTruthy fixOut then .ok (.str (fixOut.getD ""), st')
    else challenge_lookup st' uid sub

/-- The dict stored in `challenge_cache[uid]`, in the insertion order of
the literal at `main.py` lines 166-173. -/
def toDict (r : ChallengeRecord) : List (String × Value) :=
  [("solution", .s r.solution), ("challenge", .s r.challenge),
   ("session", .s r.session), ("nonce", .s r.nonce),
   ("tag", .s r.tag), ("expiry", .n r.expiry)]

/-- Python `dict.pop(k)` on a copied payload dict: drop the pair keyed `k`. -/
def popKey (d : List (String × Value)) (k : String) :
    List (String × Value) :=
  d.filter (fun kv => kv.1 != k)

/-- The `/api/challenge/<uid>` GET handler (`main.py` lines 274-296). The
`user` graph query plus `check_exists` is modelled by the Boolean
`userExists` (an empty query result returns the 404 response); a truthy
`fix_challenge` result becomes a 500 response; otherwise the handler
copies the cache entry, pops `solution`, and returns the rest with
status 200 (a missing cache entry would raise `KeyError`, line 292 has
no handler for it). -/
def api_user_auth_challenge_handle (env : Env) (st : St) (uid : String) :
    Except PyErr (Resp × St) :=
  if env.userExists uid then
    match fix_challenge env st uid with
    | .error e => .error e
    | .ok (fixOut, st') =>
      if optStrTruthy fixOut then
        .ok (⟨500, .errorMsg (fixOut.getD "")⟩, st')
      else
        match st'.cache uid with
        | some entry =>
          .ok (⟨200, .payload (popKey (toDict entry) "solution")⟩, st')
        | none => .error (.keyError uid)
  else .ok (⟨404, .errorMsg "Resource does not exist."⟩, st)

/-! ## Concrete instances for evaluation -/

/-- A concrete cached entry used to evaluate the model. -/
def recAlice : ChallengeRecord :=
  { solution := "aa", challenge := "cc", session := "ss",
    nonce := "nn", tag := "tt", expiry := 100 }

/-- A concrete byte value for the evaluation random stream: byte `p`
(mod 256) repeated, so draws at distinct positions differ. -/
def evalByte (p : Nat) : Fin 256 :=
  ⟨p % 256, Nat.mod_lt _ (by decide)⟩

/-- A concrete environment: every uid has the key `"PUBKEY"`, the user
query finds every uid, the clock reads 50, solutions are 2 bytes long,
challenges last 100 seconds, and the cipher primitives are simple
concrete functions. -/
def envLive : Env :=
  { keyFetch := fun _ => .found "PUBKEY"
    userExists := fun _ => true
    now := 50
    truthLen := 2
    expiryTime := 100
    urandom := fun p n => List.replicate n (evalByte p)
    urandom_len := fun p n => List.length_replicate n (evalByte p)
    aesEnc := fun k _ pt => (pt, k)
    rsaValid := fun _ => true
    rsaEnc := fun _ d => d }

/-- Environment `envLive` with the clock advanced past `recAlice`'s expiry. -/
def envExpired : Env :=
  { envLive with now := 150 }

/-- An environment where no uid has a registered key and the user query
finds nothing. -/
def envUnknown : Env :=
  { envLive with keyFetch := fun _ => .notFound
                 userExists := fun _ => false }

/-- An environment where the key fetch fails with a Dgraph request
error. -/
def envDbErr : Env :=
  { envLive with keyFetch := fun _ => .dbError "errs" }

/-- A state caching `recAlice` for uid `"alice"`. -/
def stAlice : St :=
  { cache := fun u => if u = "alice" then some recAlice else none
    pos := 0 }

/-- The empty cache state. -/
def stEmpty : St :=
  { cache := fun _ => none, pos := 0 }

/-- Environment `envLive` with the clock advanced a little, still before
`recAlice`'s expiry. -/
def envLater : Env :=
  { envLive with now := 60 }

/-! ## Helper lemmas -/

/-- Looking up the stored uid after `cacheSet` gives the new entry. -/
theorem cacheSet_same (c : String → Option ChallengeRecord) (uid : String)
    (r : ChallengeRecord) : cacheSet c uid r uid = some r := by
  simp [cacheSet]

/-- Function `cacheSet` leaves other uids unchanged. -/
theorem cacheSet_other (c : String → Option ChallengeRecord)
    (uid u : String) (r : ChallengeRecord) (h : u ≠ uid) :
    cacheSet c uid r u = c u := by
  simp [cacheSet, h]

/-- Popping a uid and then storing a new entry under it is the same as
storing directly: the pop is absorbed by the overwrite. -/
theorem cacheSet_pop (c : String → Option ChallengeRecord) (uid : String)
    (r : ChallengeRecord) :
    cacheSet (cachePop c uid) uid r = cacheSet c uid r := by
  funext u
  by_cases h : u = uid <;> simp [cacheSet, cachePop, h]

/-- On a cache hit with an unexpired entry `fix_challenge` is a no-op
returning `None`. -/
theorem fix_challenge_live (env : Env) (st : St) (uid : String)
    (entry : ChallengeRecord) (hrec : st.cache uid = some entry)
    (hl : env.now < entry.expiry) :
    fix_challenge env st uid = .ok (none, st) := by
  simp [fix_challenge, hrec, hl]

/-- When no live entry exists and the user's key is found and valid,
`fix_challenge` succeeds and stores the fresh record. -/
theorem fix_challenge_regen (env : Env) (st : St) (uid key : String)
    (hmiss : ∀ entry, st.cache uid = some entry → entry.expiry ≤ env.now)
    (hkey : env.keyFetch uid = .found key)
    (hv : env.rsaValid key = true) :
    fix_challenge env st uid =
      .ok (none, { cache := cacheSet st.cache uid (fresh_record env st.pos key)
                   pos := st.pos + 3 }) := by
  unfold fix_challenge
  cases hc : st.cache uid with
  | none => simp [fix_body, graph_get_userkey, hkey, hv]
  | some entry =>
    have hle := hmiss entry hc
    have hnot : ¬ entry.expiry > env.now := by omega
    simp only [hnot, if_false]
    simp [fix_body, graph_get_userkey, hkey, hv, cacheSet_pop]

/-- Python `bytes.hex()` yields two characters per byte. -/
theorem hexEncode_length (bs : List (Fin 256)) :
    (hexEncode bs).length = 2 * bs.length := by
  show (hexChars bs).length = 2 * bs.length
  induction bs with
  | nil => rfl
  | cons b t ih =>
    simp only [hexChars, List.map_cons, List.flatten_cons] at *
    simp [byteHex, ih]
    omega

/-- Every hex digit of a value below 16 is in the hex alphabet. -/
theorem hexDigit_mem : ∀ n : Fin 16, hexDigit n.val ∈ hexAlphabet := by
  decide

/-- Every character emitted by `byteHex` is a lowercase hex character. -/
theorem byteHex_mem (b : Fin 256) (c : Char) (hc : c ∈ byteHex b) :
    c ∈ hexAlphabet := by
  have hdiv : b.val / 16 < 16 := by omega
  have hmod : b.val % 16 < 16 := Nat.mod_lt _ (by decide)
  simp only [byteHex, List.mem_cons, List.not_mem_nil, or_false] at hc
  rcases hc with h | h
  · exact h ▸ hexDigit_mem ⟨b.val / 16, hdiv⟩
  · exact h ▸ hexDigit_mem ⟨b.val % 16, hmod⟩

/-- Every character of a `bytes.hex()` string is a lowercase hex
character. -/
theorem hexEncode_mem (bs : List (Fin 256)) (c : Char)
    (hc : c ∈ (hexEncode bs).data) : c ∈ hexAlphabet := by
  have : c ∈ hexChars bs := hc
  simp only [hexChars, List.mem_flatten, List.mem_map] at this
  obtain ⟨l, ⟨b, _, hb⟩, hcl⟩ := this
  exact byteHex_mem b c (hb ▸ hcl)

/-- The hex alphabet is ASCII. -/
theorem hexAlphabet_ascii (c : Char) (hc : c ∈ hexAlphabet) :
    c.toNat < 128 := by
  fin_cases hc <;> decide

/-! ## Claim theorems -/

/-- Claim C1: for a user with an unexpired cached challenge entry,
`validate_challenge` returns the boolean comparison of the cached
plaintext solution with the submitted string, and that boolean is
`true` exactly when the two strings are equal — empty strings,
prefixes, case variants and other users' solutions all yield `false`. -/
theorem validate_challenge_active_iff (env : Env) (st : St)
    (uid sub : String) (entry : ChallengeRecord)
    (hrec : st.cache uid = some entry) (hl : env.now < entry.expiry) :
    validate_challenge env st uid sub =
      .ok (.bool (entry.solution == sub), st) ∧
    ((entry.solution == sub) = true ↔ sub = entry.solution) := by
  constructor
  · simp [validate_challenge, fix_challenge_live env st uid entry hrec hl,
      optStrTruthy, challenge_lookup, hrec]
  · simp only [beq_iff_eq]
    exact eq_comm

/-- Claim C1 witness: with a cached unexpired entry whose solution is
`"aa"`, submitting `"aa"` compares `true` and the comparison is an
equality test. -/
theorem validate_challenge_active_iff_witness :
    validate_challenge envLive stAlice "alice" "aa" =
      .ok (.bool (recAlice.solution == "aa"), stAlice) ∧
    ((recAlice.solution == "aa") = true ↔ "aa" = recAlice.solution) :=
  validate_challenge_active_iff envLive stAlice "alice" "aa" recAlice
    (by simp [stAlice]) (by simp [envLive, recAlice])

/-- Claim C4: with an unexpired cached entry, `fix_challenge` is a no-op
returning the state unchanged, so two challenge fetches within the
validity window (possibly at different clock readings) return the
byte-identical payload and leave the cache untouched. -/
theorem get_challenge_freshness (env1 env2 : Env) (st : St) (uid : String)
    (entry : ChallengeRecord) (hrec : st.cache uid = some entry)
    (hu1 : env1.userExists uid = true) (hu2 : env2.userExists uid = true)
    (hl1 : env1.now < entry.expiry) (hl2 : env2.now < entry.expiry) :
    fix_challenge env1 st uid = .ok (none, st) ∧
    api_user_auth_challenge_handle env1 st uid =
      .ok (⟨200, .payload (popKey (toDict entry) "solution")⟩, st) ∧
    api_user_auth_challenge_handle env2 st uid =
      .ok (⟨200, .payload (popKey (toDict entry) "solution")⟩, st) := by
  refine ⟨fix_challenge_live env1 st uid entry hrec hl1, ?_, ?_⟩
  · simp [api_user_auth_challenge_handle, hu1,
      fix_challenge_live env1 st uid entry hrec hl1, optStrTruthy, hrec]
  · simp [api_user_auth_challenge_handle, hu2,
      fix_challenge_live env2 st uid entry hrec hl2, optStrTruthy, hrec]

/-- Claim C4 witness: fetching alice's challenge at clock 50 and again
at clock 60 (expiry 100) yields identical payloads and an unchanged
state. -/
theorem get_challenge_freshness_witness :
    fix_challenge envLive stAlice "alice" = .ok (none, stAlice) ∧
    api_user_auth_challenge_handle envLive stAlice "alice" =
      .ok (⟨200, .payload (popKey (toDict recAlice) "solution")⟩, stAlice) ∧
    api_user_auth_challenge_handle envLater stAlice "alice" =
      .ok (⟨200, .payload (popKey (toDict recAlice) "solution")⟩, stAlice) :=
  get_challenge_freshness envLive envLater stAlice "alice" recAlice
    (by simp [stAlice]) rfl rfl (by simp [envLive, recAlice])
    (by simp [envLater, envLive, recAlice])

/-- A successful `fix_body` run returns `None` with the fresh record
stored; the error-return branch can only yield `some`. -/
theorem fix_body_none (env : Env) (st1 st' : St) (uid : String)
    (h : fix_body env st1 uid = .ok (none, st')) :
    ∃ key, env.keyFetch uid = .found key ∧
      st' = { cache := cacheSet st1.cache uid (fresh_record env st1.pos key)
              pos := st1.pos + 3 } := by
  unfold fix_body graph_get_userkey at h
  cases hk : env.keyFetch uid with
  | found key =>
    rw [hk] at h
    by_cases hv : env.rsaValid key = true
    · simp only [hv, if_true] at h
      cases h
      exact ⟨key, rfl, rfl⟩
    · simp only [hv, if_false] at h
      cases h
  | notFound => rw [hk] at h; simp [json_dumps_exc] at h
  | dbError msg => rw [hk] at h; simp [json_dumps_exc] at h

/-- Claim C9: whenever `fix_challenge` returns `None`, the cache holds
an entry for the uid in the resulting state, so `validate_challenge`'s
`except KeyError` fallback is unreachable: the validation result is
always the comparison against that cached entry, never the
failed-lookup `False`. -/
theorem fix_none_implies_cached (env : Env) (st st' : St) (uid : String)
    (h : fix_challenge env st uid = .ok (none, st')) :
    ∃ entry, st'.cache uid = some entry ∧
      ∀ sub, validate_challenge env st uid sub =
        .ok (.bool (entry.solution == sub), st') := by
  have hca : ∃ entry, st'.cache uid = some entry := by
    cases hc : st.cache uid with
    | some entry =>
      by_cases hl : env.now < entry.expiry
      · rw [fix_challenge_live env st uid entry hc hl] at h
        cases h
        exact ⟨entry, hc⟩
      · have hb : fix_challenge env st uid =
            fix_body env { st with cache := cachePop st.cache uid } uid := by
          simp [fix_challenge, hc, hl]
        rw [hb] at h
        obtain ⟨key, -, hst⟩ := fix_body_none env _ st' uid h
        exact ⟨_, by rw [hst]; exact cacheSet_same _ uid _⟩
    | none =>
      have hb : fix_challenge env st uid = fix_body env st uid := by
        simp [fix_challenge, hc]
      rw [hb] at h
      obtain ⟨key, -, hst⟩ := fix_body_none env st st' uid h
      exact ⟨_, by rw [hst]; exact cacheSet_same _ uid _⟩
  obtain ⟨entry, he⟩ := hca
  refine ⟨entry, he, fun sub => ?_⟩
  simp [validate_challenge, h, optStrTruthy, challenge_lookup, he]

/-- Claim C9 witness: a concrete `None` result of `fix_challenge` whose
resulting state caches an entry driving the comparison. -/
theorem fix_none_implies_cached_witness :
    ∃ entry, stAlice.cache "alice" = some entry ∧
      ∀ sub, validate_challenge envLive stAlice "alice" sub =
        .ok (.bool (entry.solution == sub), stAlice) :=
  fix_none_implies_cached envLive stAlice stAlice "alice" rfl

/-- On a cache hit with an unexpired entry, `validate_challenge`
returns the comparison against the cached solution, unchanged state. -/
theorem validate_challenge_live_eq (env : Env) (st : St) (uid sub : String)
    (entry : ChallengeRecord) (hrec : st.cache uid = some entry)
    (hl : env.now < entry.expiry) :
    validate_challenge env st uid sub =
      .ok (.bool (entry.solution == sub), st) := by
  simp [validate_challenge, fix_challenge_live env st uid entry hrec hl,
    optStrTruthy, challenge_lookup, hrec]

/-- Claim C5: for a known user with a valid key and no live cache entry
(absent, or expired at the current clock), `fix_challenge` succeeds,
stores exactly one new record for the uid (every other uid untouched)
whose expiry is `now` plus the configured duration and whose solution,
session key and nonce are read from the first unconsumed positions of
the random stream (the stream position advances past them); under the
freshness assumption that those new draws differ from the prior
record's stored values, the new solution and nonce differ from the
prior ones. -/
theorem fix_challenge_regenerates (env : Env) (st : St) (uid key : String)
    (hmiss : ∀ entry, st.cache uid = some entry → entry.expiry ≤ env.now)
    (hkey : env.keyFetch uid = .found key)
    (hv : env.rsaValid key = true) :
    ∃ st', fix_challenge env st uid = .ok (none, st') ∧
      st'.cache uid = some (fresh_record env st.pos key) ∧
      (∀ u, u ≠ uid → st'.cache u = st.cache u) ∧
      st'.pos = st.pos + 3 ∧
      (fresh_record env st.pos key).expiry = env.now + env.expiryTime ∧
      (fresh_record env st.pos key).solution =
        hexEncode (env.urandom st.pos env.truthLen) ∧
      (fresh_record env st.pos key).nonce =
        hexEncode (env.urandom (st.pos + 2) 16) ∧
      ∀ prev, st.cache uid = some prev →
        (hexEncode (env.urandom st.pos env.truthLen) ≠ prev.solution →
          (fresh_record env st.pos key).solution ≠ prev.solution) ∧
        (hexEncode (env.urandom (st.pos + 2) 16) ≠ prev.nonce →
          (fresh_record env st.pos key).nonce ≠ prev.nonce) := by
  refine ⟨_, fix_challenge_regen env st uid key hmiss hkey hv,
    cacheSet_same _ _ _, fun u hu => cacheSet_other _ _ _ _ hu,
    rfl, rfl, rfl, rfl, fun prev _ => ⟨fun hne => hne, fun hne => hne⟩⟩

/-- Claim C5 witness: alice's entry expired at clock 150, the key is
found and valid, and regeneration stores the concrete fresh record. -/
theorem fix_challenge_regenerates_witness :
    ∃ st', fix_challenge envExpired stAlice "alice" = .ok (none, st') ∧
      st'.cache "alice" =
        some (fresh_record envExpired stAlice.pos "PUBKEY") ∧
      (∀ u, u ≠ "alice" → st'.cache u = stAlice.cache u) ∧
      st'.pos = stAlice.pos + 3 ∧
      (fresh_record envExpired stAlice.pos "PUBKEY").expiry =
        envExpired.now + envExpired.expiryTime ∧
      (fresh_record envExpired stAlice.pos "PUBKEY").solution =
        hexEncode (envExpired.urandom stAlice.pos envExpired.truthLen) ∧
      (fresh_record envExpired stAlice.pos "PUBKEY").nonce =
        hexEncode (envExpired.urandom (stAlice.pos + 2) 16) ∧
      ∀ prev, stAlice.cache "alice" = some prev →
        (hexEncode (envExpired.urandom stAlice.pos envExpired.truthLen) ≠
            prev.solution →
          (fresh_record envExpired stAlice.pos "PUBKEY").solution ≠
            prev.solution) ∧
        (hexEncode (envExpired.urandom (stAlice.pos + 2) 16) ≠ prev.nonce →
          (fresh_record envExpired stAlice.pos "PUBKEY").nonce ≠
            prev.nonce) :=
  fix_challenge_regenerates envExpired stAlice "alice" "PUBKEY"
    (by intro e he; simp [stAlice] at he; rw [← he]; decide) rfl rfl

/-- Claim C7: validating against a known user with no live challenge
entry regenerates a brand-new record as a side effect, and — since the
submitted guess differs from the freshly drawn solution — the attempt
returns `False`. -/
theorem validate_challenge_no_active (env : Env) (st : St)
    (uid key sub : String)
    (hmiss : ∀ entry, st.cache uid = some entry → entry.expiry ≤ env.now)
    (hkey : env.keyFetch uid = .found key)
    (hv : env.rsaValid key = true)
    (hne : sub ≠ hexEncode (env.urandom st.pos env.truthLen)) :
    ∃ st', validate_challenge env st uid sub = .ok (.bool false, st') ∧
      st'.cache uid = some (fresh_record env st.pos key) := by
  have hfix := fix_challenge_regen env st uid key hmiss hkey hv
  refine ⟨{ cache := cacheSet st.cache uid (fresh_record env st.pos key)
            pos := st.pos + 3 }, ?_, cacheSet_same _ _ _⟩
  have hsol : (fresh_record env st.pos key).solution ≠ sub := by
    intro hh
    exact hne (by rw [← hh]; rfl)
  simp [validate_challenge, hfix, optStrTruthy, challenge_lookup,
    cacheSet_same, hsol]

/-- Claim C7 witness: with alice's entry expired, submitting a guess
that is not the fresh solution `"0000"` fails and leaves the fresh
record cached. -/
theorem validate_challenge_no_active_witness :
    ∃ st', validate_challenge envExpired stAlice "alice" "guess" =
        .ok (.bool false, st') ∧
      st'.cache "alice" =
        some (fresh_record envExpired stAlice.pos "PUBKEY") :=
  validate_challenge_no_active envExpired stAlice "alice" "PUBKEY" "guess"
    (by intro e he; simp [stAlice] at he; rw [← he]; decide) rfl rfl
    (by decide)

/-- Claim C10: the freshly stored solution is the lowercase-hex
encoding of `challenge_truth_length` random bytes — an ASCII string of
exactly twice that many characters — that same hex string (not the raw
bytes) is the plaintext fed to the authenticated cipher, and submitting
it verbatim validates successfully while the record is live. -/
theorem fresh_solution_hex_exact (env : Env) (st : St) (uid key : String)
    (hmiss : ∀ entry, st.cache uid = some entry → entry.expiry ≤ env.now)
    (hkey : env.keyFetch uid = .found key)
    (hv : env.rsaValid key = true)
    (hexp : 0 < env.expiryTime) :
    ∃ st' entry, fix_challenge env st uid = .ok (none, st') ∧
      st'.cache uid = some entry ∧
      entry.solution = hexEncode (env.urandom st.pos env.truthLen) ∧
      entry.solution.length = 2 * env.truthLen ∧
      (∀ c ∈ entry.solution.data, c ∈ hexAlphabet ∧ c.toNat < 128) ∧
      entry.challenge = hexEncode (env.aesEnc (env.urandom (st.pos + 1) 16)
        (env.urandom (st.pos + 2) 16) (strToBytes entry.solution)).1 ∧
      validate_challenge env st' uid entry.solution =
        .ok (.bool true, st') := by
  have hfix := fix_challenge_regen env st uid key hmiss hkey hv
  refine ⟨_, fresh_record env st.pos key, hfix, cacheSet_same _ _ _,
    rfl, ?_, ?_, rfl, ?_⟩
  · show (hexEncode (env.urandom st.pos env.truthLen)).length = _
    rw [hexEncode_length, env.urandom_len]
  · intro c hc
    exact ⟨hexEncode_mem _ c hc, hexAlphabet_ascii c (hexEncode_mem _ c hc)⟩
  · have hl : env.now < (fresh_record env st.pos key).expiry := by
      show env.now < env.now + env.expiryTime
      omega
    rw [validate_challenge_live_eq env _ uid _ _ (cacheSet_same _ _ _) hl]
    simp

/-- Claim C10 witness: the concrete regeneration at clock 150 stores
solution `"0000"` (hex of two zero bytes), of length 4, made of hex
characters, encrypted as its ASCII bytes, and validating with `"0000"`
returns `True`. -/
theorem fresh_solution_hex_exact_witness :
    ∃ st' entry, fix_challenge envExpired stAlice "alice" =
        .ok (none, st') ∧
      st'.cache "alice" = some entry ∧
      entry.solution =
        hexEncode (envExpired.urandom stAlice.pos envExpired.truthLen) ∧
      entry.solution.length = 2 * envExpired.truthLen ∧
      (∀ c ∈ entry.solution.data, c ∈ hexAlphabet ∧ c.toNat < 128) ∧
      entry.challenge = hexEncode
        (envExpired.aesEnc (envExpired.urandom (stAlice.pos + 1) 16)
          (envExpired.urandom (stAlice.pos + 2) 16)
          (strToBytes entry.solution)).1 ∧
      validate_challenge envExpired st' "alice" entry.solution =
        .ok (.bool true, st') :=
  fresh_solution_hex_exact envExpired stAlice "alice" "PUBKEY"
    (by intro e he; simp [stAlice] at he; rw [← he]; decide) rfl rfl
    (by decide)

/-- Claim C6: any 200 response of the challenge endpoint carries the
payload built by copying the cached entry and popping `solution`: its
fields are exactly ciphertext (`challenge`), wrapped key (`session`),
`nonce`, `tag` and `expiry`, the key `solution` never appears, and the
cached record itself — solution included — is still stored unchanged in
the resulting state. -/
theorem challenge_payload_fields (env : Env) (st st' : St) (uid : String)
    (r : Resp)
    (h : api_user_auth_challenge_handle env st uid = .ok (r, st'))
    (h200 : r.status = 200) :
    ∃ entry, st'.cache uid = some entry ∧
      r.body = .payload (popKey (toDict entry) "solution") ∧
      (popKey (toDict entry) "solution").map Prod.fst =
        ["challenge", "session", "nonce", "tag", "expiry"] ∧
      "solution" ∉ (popKey (toDict entry) "solution").map Prod.fst := by
  unfold api_user_auth_challenge_handle at h
  by_cases hu : env.userExists uid = true
  · rw [if_pos hu] at h
    cases hf : fix_challenge env st uid with
    | error e => rw [hf] at h; cases h
    | ok p =>
      obtain ⟨fixOut, st1⟩ := p
      rw [hf] at h
      by_cases ht : optStrTruthy fixOut = true
      · simp only [ht, if_true] at h
        cases h
        simp at h200
      · simp only [ht, if_false] at h
        cases hc : st1.cache uid with
        | none => rw [hc] at h; cases h
        | some entry =>
          rw [hc] at h
          cases h
          exact ⟨entry, hc, rfl, by simp [popKey, toDict], by
            simp [popKey, toDict]⟩
  · rw [if_neg hu] at h
    cases h
    simp at h200

/-- Claim C6 witness: the concrete 200 response for alice carries the
five public fields of `recAlice` and the cache still holds `recAlice`
with its solution. -/
theorem challenge_payload_fields_witness :
    ∃ entry, stAlice.cache "alice" = some entry ∧
      RespBody.payload (popKey (toDict recAlice) "solution") =
        .payload (popKey (toDict entry) "solution") ∧
      (popKey (toDict entry) "solution").map Prod.fst =
        ["challenge", "session", "nonce", "tag", "expiry"] ∧
      "solution" ∉ (popKey (toDict entry) "solution").map Prod.fst :=
  challenge_payload_fields envLive stAlice stAlice "alice"
    ⟨200, .payload (popKey (toDict recAlice) "solution")⟩
    rfl rfl

/-- Claim C3 evidence: for a uid with no registered key and an empty
cache, the challenge-fetch endpoint does return the 404 not-found
response, but `validate_challenge` raises `TypeError` — the first
handler `except Exception` captures the `IndexError` of the empty
`userkey` query result (the dedicated `except IndexError` and
`except KeyError` clauses at `main.py` lines 158-161 are dead code) and
`json.dumps` cannot serialize an exception object — instead of
signalling the unknown user. -/
theorem unknown_user_raises_type_error :
    api_user_auth_challenge_handle envUnknown stEmpty "nonexistent" =
      .ok (⟨404, .errorMsg "Resource does not exist."⟩, stEmpty) ∧
    validate_challenge envUnknown stEmpty "nonexistent" "anything" =
      .error (.typeError
        "Object of type Exception is not JSON serializable") := by
  exact ⟨rfl, rfl⟩

/-- Claim C2 evidence: in the validation path, the unknown-user case
and the database-failure case both end in the identical raised
`TypeError` from `json.dumps(error)` — `validate_challenge` neither
returns a boolean there nor produces an error value distinguishing the
unknown user from an internal key-fetch failure, and the documented
error-string return of `fix_challenge` is unreachable. -/
theorem keyfetch_failures_indistinguishable :
    validate_challenge envUnknown stEmpty "bob" "x" =
      .error (.typeError
        "Object of type Exception is not JSON serializable") ∧
    validate_challenge envDbErr stEmpty "bob" "x" =
      .error (.typeError
        "Object of type Exception is not JSON serializable") ∧
    validate_challenge envUnknown stEmpty "bob" "x" =
      validate_challenge envDbErr stEmpty "bob" "x" := by
  exact ⟨rfl, rfl, rfl⟩

end QuestLog
